import Mathlib

/-!
Shallow embedding of the SWAG-Golf generation/retrieval engine.

Python floats are modelled as rationals (ℚ).  `math.sqrt` is not rational-valued,
so it is threaded through as an explicit function parameter `sqrt : ℚ → ℚ`; the
theorems only rely on the concrete values of `sqrt` that the Python code would
actually compute on the inputs at hand, or on no property of `sqrt` at all.
-/

namespace Swag

/-! ## rag/utils.py -/

/-- The `cosine_similarity` from `src/rag/utils.py`.  `sqrt` models `math.sqrt`.
The Python guard `if not vec1 or not vec2 or len(vec1) != len(vec2)` returns 0.0,
as does the `norm1 == 0 or norm2 == 0` guard. -/
def cosine_similarity (sqrt : ℚ → ℚ) (vec1 vec2 : List ℚ) : ℚ :=
  if vec1 = [] ∨ vec2 = [] ∨ vec1.length ≠ vec2.length then 0
  else
    let dot_product := ((vec1.zip vec2).map (fun p => p.1 * p.2)).sum
    let norm1 := sqrt ((vec1.map (fun a => a * a)).sum)
    let norm2 := sqrt ((vec2.map (fun b => b * b)).sum)
    if norm1 = 0 ∨ norm2 = 0 then 0
    else dot_product / (norm1 * norm2)

/-! ## rag/types.py and style/types.py -/

/-- The `ImageEmbedding` from `src/rag/types.py`. -/
structure ImageEmbedding where
  image_path : String
  embedding : List ℚ
  style_id : String
deriving DecidableEq, Repr

/-- The `ReferenceImage` from `src/rag/types.py` (the `metadata` dict, always passed
as `{}` by the retriever, is omitted). -/
structure ReferenceImage where
  path : String
  style_id : String
  embedding : List ℚ
deriving DecidableEq, Repr

/-- The `query_context` dict built by `ImageRetriever.retrieve`
(`src/rag/retriever.py`).  In the empty-index branch the keys
`refined_intent` and `total_candidates` are absent, modelled as `none`. -/
structure QueryContext where
  style_id : String
  intent : String
  refined_intent : Option String
  top_k : Nat
  total_candidates : Option Nat
deriving DecidableEq, Repr

/-- The `RetrievalResult` from `src/rag/types.py`. -/
structure RetrievalResult where
  images : List ReferenceImage
  scores : List ℚ
  query_context : QueryContext
deriving DecidableEq, Repr

/-- The `RetrievalConfig` from `src/rag/types.py` with its defaults. -/
structure RetrievalConfig where
  top_k : Nat := 5
  min_similarity : ℚ := 0
  include_negative : Bool := false
deriving DecidableEq, Repr

/-- The `Style` from `src/style/types.py`; `visual_rules` (free-form text rules that
only feed prompt formatting) is omitted, `do_not_use = None` is modelled as `[]`
(the retriever turns a falsy value into the empty set). -/
structure Style where
  id : String
  name : String
  description : String
  reference_images : List String := []
  do_not_use : List String := []
deriving DecidableEq, Repr

/-- The fields of `PromptSpec` (`src/prompt/schema.py`) that the retrieval and
generation paths read; the remaining optional slots only feed prompt
formatting. -/
structure PromptSpec where
  intent : String
  refined_intent : String
  style_id : String
  negative_constraints : List String := []
deriving DecidableEq, Repr

/-! ## rag/retriever.py -/

/-- The descending-score comparison used by
`sorted(zip(scores, embeddings), key=lambda x: x[0], reverse=True)`:
`a` may come before `b` iff `a`'s score is at least `b`'s.  Python's `sorted`
is stable, also with `reverse=True`, which insertion sort with this relation
reproduces exactly. -/
def scoreGe {α : Type} (a b : ℚ × α) : Prop := b.1 ≤ a.1

instance {α : Type} : DecidableRel (@scoreGe α) :=
  fun a b => inferInstanceAs (Decidable (b.1 ≤ a.1))

instance {α : Type} : IsTotal (ℚ × α) scoreGe :=
  ⟨fun a b => le_total b.1 a.1⟩

instance {α : Type} : IsTrans (ℚ × α) scoreGe :=
  ⟨fun _ _ _ hab hbc => le_trans hbc hab⟩

/-- The query vector `ImageRetriever.retrieve` actually uses: the first
candidate's embedding (`query_embedding = embeddings[0].embedding`, the
placeholder at `src/rag/retriever.py:68`). -/
def query_embedding_of : List ImageEmbedding → List ℚ
  | [] => []
  | e :: _ => e.embedding

/-- Python's `k = top_k or self.config.top_k`: `None` and `0` are falsy. -/
def resolve_top_k (config : RetrievalConfig) : Option Nat → Nat
  | none => config.top_k
  | some 0 => config.top_k
  | some n => n

/-- The `ReferenceImage(path=emb.image_path, style_id=emb.style_id,
embedding=emb.embedding, metadata={})` as built by the retriever. -/
def reference_image_of (e : ImageEmbedding) : ReferenceImage :=
  { path := e.image_path, style_id := e.style_id, embedding := e.embedding }

/-- The `(score, embedding)` pair list `ImageRetriever.retrieve` builds for a
non-empty index, in the code's order: score every candidate against the first
candidate's embedding, stable-sort descending (`sorted(..., reverse=True)`),
drop below `min_similarity`, truncate to `k`, then (unless `include_negative`)
drop candidates whose path is in `style.do_not_use`. -/
def retrieve_pairs (sqrt : ℚ → ℚ) (config : RetrievalConfig) (style : Style)
    (e0 : ImageEmbedding) (rest : List ImageEmbedding) (k : Nat) :
    List (ℚ × ImageEmbedding) :=
  let embeddings' := e0 :: rest
  let scores := embeddings'.map
    (fun emb => cosine_similarity sqrt e0.embedding emb.embedding)
  let ranked := List.insertionSort scoreGe (scores.zip embeddings')
  let filtered := ranked.filter (fun p => decide (config.min_similarity ≤ p.1))
  let top_results := filtered.take k
  if config.include_negative then top_results
  else top_results.filter (fun p => !(style.do_not_use.contains p.2.image_path))

/-- The `ImageRetriever.retrieve` from `src/rag/retriever.py`, with the style's
embedding list (`style_index.get_embeddings()`) and the resolved `Style`
(`index_registry.style_registry.get_style(style_id)`) passed as inputs.
An empty index yields an empty result; otherwise the candidate pipeline is
`retrieve_pairs`. -/
def retrieve (sqrt : ℚ → ℚ) (config : RetrievalConfig) (style : Style)
    (embeddings : List ImageEmbedding) (prompt_spec : PromptSpec)
    (top_k : Option Nat) : RetrievalResult :=
  let k := resolve_top_k config top_k
  match embeddings with
  | [] =>
    { images := [], scores := [],
      query_context :=
        { style_id := prompt_spec.style_id, intent := prompt_spec.intent,
          refined_intent := none, top_k := k, total_candidates := none } }
  | e0 :: rest =>
    let top_results2 := retrieve_pairs sqrt config style e0 rest k
    { images := top_results2.map (fun p => reference_image_of p.2),
      scores := top_results2.map (fun p => p.1),
      query_context :=
        { style_id := prompt_spec.style_id, intent := prompt_spec.intent,
          refined_intent := some prompt_spec.refined_intent, top_k := k,
          total_candidates := some (e0 :: rest).length } }

/-- The candidate list in original index order, scored and converted to
`ReferenceImage`, used to state the tie-break (stability) guarantee. -/
def scored_candidates (sqrt : ℚ → ℚ) (embeddings : List ImageEmbedding) :
    List (ℚ × ReferenceImage) :=
  embeddings.map (fun emb =>
    (cosine_similarity sqrt (query_embedding_of embeddings) emb.embedding,
     reference_image_of emb))

/-- The candidate pipeline in the ORDER CLAIMED by the spec (claim C3):
threshold first, then exclusion, then truncation to `k`.  This definition
follows the claim's words and exists to be compared against `retrieve`. -/
def claimed_filter_order (config : RetrievalConfig) (style : Style) (k : Nat)
    (ranked : List (ℚ × ImageEmbedding)) : List (ℚ × ImageEmbedding) :=
  let thresholded := ranked.filter (fun p => decide (config.min_similarity ≤ p.1))
  let excluded := thresholded.filter
    (fun p => !(style.do_not_use.contains p.2.image_path))
  excluded.take k

/-- The pipeline the code actually performs after ranking (threshold, truncate,
then exclusion), factored out to state the amended claim C3. -/
def code_filter_order (config : RetrievalConfig) (style : Style) (k : Nat)
    (ranked : List (ℚ × ImageEmbedding)) : List (ℚ × ImageEmbedding) :=
  let thresholded := ranked.filter (fun p => decide (config.min_similarity ≤ p.1))
  let truncated := thresholded.take k
  truncated.filter (fun p => !(style.do_not_use.contains p.2.image_path))

/-! ## feedback/session.py -/

/-- The `ConversationTurn` from `src/feedback/session.py`.  `image_paths` may hold
nulls for failed slots (the pipeline records `result.images` verbatim). -/
structure ConversationTurn where
  turn_number : Nat
  role : String
  timestamp : String
  user_input : String
  style_id : String
  refined_intent : Option String := none
  negative_constraints : Option (List String) := none
  image_paths : Option (List (Option String)) := none
deriving DecidableEq, Repr

/-- The `ConversationContext` from `src/feedback/session.py` (`created_at` omitted:
it is a wall-clock timestamp read nowhere). -/
structure ConversationContext where
  session_id : String
  style_id : String
  turns : List ConversationTurn := []
deriving DecidableEq, Repr

/-- The `ConversationContext.turn_count` (`len(self.turns)`). -/
def ConversationContext.turn_count (c : ConversationContext) : Nat :=
  c.turns.length

/-- The `ConversationContext.feedback_count`
(`sum(1 for t in self.turns if t.role == "feedback")`). -/
def ConversationContext.feedback_count (c : ConversationContext) : Nat :=
  (c.turns.filter (fun t => t.role = "feedback")).length

/-- The `ConversationContext.get_feedback_texts`. -/
def ConversationContext.get_feedback_texts (c : ConversationContext) : List String :=
  (c.turns.filter (fun t => t.role = "feedback")).map (fun t => t.user_input)

/-- One OpenAI chat message (a `{"role": ..., "content": ...}` dict). -/
structure ChatMessage where
  role : String
  content : String
deriving DecidableEq, Repr

/-- The assistant message a `generate` turn contributes in
`ConversationContext.to_gpt_messages`. -/
def generate_assistant_content (t : ConversationTurn) : String :=
  "[Compiled Prompt]\n" ++
  "Refined intent: " ++ ((t.refined_intent).getD "None") ++ "\n" ++
  "Negative constraints: " ++
    (String.intercalate ", " ((t.negative_constraints).getD [])) ++ "\n" ++
  "Generated images: " ++
    (String.intercalate ", "
      ((List.range ((t.image_paths).getD []).length).map
        (fun i => "Image " ++ toString (i + 1))))

/-- The messages one turn contributes in
`ConversationContext.to_gpt_messages` (`src/feedback/session.py:56-79`):
a `generate` turn yields a paired user/assistant message, a `feedback` turn a
single user message; any other role (in particular `refine`) matches neither
branch of the loop and yields nothing. -/
def turn_messages (t : ConversationTurn) : List ChatMessage :=
  if t.role = "generate" then
    [{ role := "user", content := "[Generation Request] " ++ t.user_input },
     { role := "assistant", content := generate_assistant_content t }]
  else if t.role = "feedback" then
    [{ role := "user", content := "[Feedback] " ++ t.user_input }]
  else []

/-- The `ConversationContext.to_gpt_messages`: the Python loop appends each turn's
messages to an accumulator. -/
def to_gpt_messages (turns : List ConversationTurn) : List ChatMessage :=
  turns.foldl (fun messages t => messages ++ turn_messages t) []

/-- The `SessionStore._sessions` — a Python dict, modelled as a function from
string keys to optional contexts. -/
def SessionDict := String → Option ConversationContext

/-- The `SessionStore._key`: the string concatenation `f"{session_id}::{style_id}"`. -/
def session_key (session_id style_id : String) : String :=
  session_id ++ "::" ++ style_id

/-- Dict assignment `self._sessions[key] = ctx`. -/
def dict_set (d : SessionDict) (key : String) (ctx : ConversationContext) :
    SessionDict :=
  fun k => if k = key then some ctx else d k

/-- Dict removal `self._sessions.pop(key, None)`. -/
def dict_pop (d : SessionDict) (key : String) : SessionDict :=
  fun k => if k = key then none else d k

/-- The `SessionStore.get_or_create`: look the concatenated key up, creating and
storing a fresh context on a miss; returns the context together with the
(possibly extended) store. -/
def get_or_create (d : SessionDict) (session_id style_id : String) :
    ConversationContext × SessionDict :=
  match d (session_key session_id style_id) with
  | some ctx => (ctx, d)
  | none =>
    let ctx : ConversationContext :=
      { session_id := session_id, style_id := style_id, turns := [] }
    (ctx, dict_set d (session_key session_id style_id) ctx)

theorem dict_set_self (d : SessionDict) (key : String) (ctx : ConversationContext) :
    dict_set d key ctx key = some ctx := by
  simp [dict_set]

theorem dict_set_other (d : SessionDict) (key k : String)
    (ctx : ConversationContext) (h : k ≠ key) : dict_set d key ctx k = d k := by
  simp [dict_set, h]

/-- The `SessionStore.reset`. -/
def store_reset (d : SessionDict) (session_id style_id : String) : SessionDict :=
  dict_pop d (session_key session_id style_id)

/-- The `get_or_create` followed by the in-place mutation `ctx.add_turn(turn)`:
in the functional model the mutated context is written back to its slot. -/
def store_add_turn (d : SessionDict) (session_id style_id : String)
    (turn : ConversationTurn) : SessionDict :=
  let p := get_or_create d session_id style_id
  dict_set p.2 (session_key session_id style_id)
    { p.1 with turns := p.1.turns ++ [turn] }

/-! ## generate/nano_banana_client.py — the per-image worker -/

/-- Raw image bytes. -/
abbrev Bytes := List Nat

/-- One `part` of a Gemini response candidate: possibly carrying
`inline_data` (modelled after base64 decoding, i.e. as bytes). -/
structure Part where
  inline_data : Option Bytes
deriving DecidableEq, Repr

/-- One Gemini response candidate; `parts` models `candidate.content.parts`
(`hasattr(candidate, 'content') and candidate.content.parts` collapses to the
list being non-empty). -/
structure Candidate where
  parts : List Part
deriving DecidableEq, Repr

/-- A Gemini API response as far as `_generate_single_image` inspects it. -/
structure GeminiResponse where
  candidates : List Candidate
deriving DecidableEq, Repr

/-- The `img_bytes.startswith(b'\x89PNG') or img_bytes.startswith(b'\xff\xd8\xff')`. -/
def is_png_or_jpeg (b : Bytes) : Bool :=
  List.isPrefixOf [0x89, 0x50, 0x4E, 0x47] b || List.isPrefixOf [0xFF, 0xD8, 0xFF] b

/-- The `for part in candidate.content.parts` scan: the first part carrying
non-empty inline data with a PNG/JPEG magic number wins; invalid parts are
skipped with a warning. -/
def find_image_bytes : List Part → Option Bytes
  | [] => none
  | p :: rest =>
    match p.inline_data with
    | some b => if !(b = ([] : List Nat) : Bool) && is_png_or_jpeg b
                then some b else find_image_bytes rest
    | none => find_image_bytes rest

/-- Response validation inside `_generate_single_image`'s `try` block: these
`RuntimeError`s are re-raised unretried by `except RuntimeError: raise`. -/
def validate_generate_response (index : Nat) (resp : GeminiResponse) :
    Except String Bytes :=
  match resp.candidates with
  | [] => .error ("Gemini returned no candidates for image " ++ toString (index + 1)
      ++ " - may have been blocked by safety filters")
  | candidate :: _ =>
    if candidate.parts = [] then
      .error ("Gemini returned no content for image " ++ toString (index + 1))
    else
      match find_image_bytes candidate.parts with
      | some b => .ok b
      | none => .error ("Gemini returned no image data for image " ++ toString (index + 1))

/-- Same validation in `_generate_single_image_refine` (different messages). -/
def validate_refine_response (index : Nat) (resp : GeminiResponse) :
    Except String Bytes :=
  match resp.candidates with
  | [] => .error ("Gemini returned no candidates for refine " ++ toString (index + 1))
  | candidate :: _ =>
    if candidate.parts = [] then
      .error ("Gemini returned no content for refine " ++ toString (index + 1))
    else
      match find_image_bytes candidate.parts with
      | some b => .ok b
      | none => .error ("Gemini returned no image data for refine " ++ toString (index + 1))

/-- Does `needle` occur as a prefix of any suffix of `haystack`?  (Structural
recursion so that concrete instances evaluate in the kernel.) -/
def chars_contain (needle : List Char) : List Char → Bool
  | [] => needle.isEmpty
  | c :: rest => needle.isPrefixOf (c :: rest) || chars_contain needle rest

/-- The `needle in haystack` on Python strings (contiguous substring test). -/
def contains_sub (needle haystack : String) : Bool :=
  chars_contain needle.toList haystack.toList

/-- Python's `str.lower()` (ASCII case folding suffices for the messages the
client inspects). -/
def lower_string (s : String) : String :=
  String.mk (s.toList.map Char.toLower)

/-- The `'503' in error_msg or '429' in error_msg or 'unavailable' in error_msg.lower()`. -/
def is_retryable_msg (msg : String) : Bool :=
  contains_sub "503" msg || contains_sub "429" msg ||
    contains_sub "unavailable" (lower_string msg)

/-- The `'429' in error_msg or 'quota' in error_msg.lower()`. -/
def is_quota_msg (msg : String) : Bool :=
  contains_sub "429" msg || contains_sub "quota" (lower_string msg)

/-- The `max_retries = 3` in both worker loops. -/
def max_retries : Nat := 3

instance {ε α : Type} [DecidableEq ε] [DecidableEq α] : DecidableEq (Except ε α) :=
  fun x y =>
    match x, y with
    | .ok a, .ok b => if h : a = b then isTrue (by rw [h]) else isFalse (by simp [h])
    | .error a, .error b => if h : a = b then isTrue (by rw [h]) else isFalse (by simp [h])
    | .ok _, .error _ => isFalse (by simp)
    | .error _, .ok _ => isFalse (by simp)

/-- What one worker call produced: the returned bytes or the raised
`RuntimeError` message, how many attempts ran, and the retry notifications
delivered to the orchestrator.

Modelled from the spec: the `onRetry(index, attemptNumber, maxRetries)`
side-channel hook.  The synchronous client in `src` only prints the warning
`(attempt {attempt+1}/{max_retries})` at this point; the streaming pipeline's
`on_retry` callback (`src/api/services/pipeline.py:428`) records
`(index, attempt, maxRetries)` tuples from the async worker variant, whose
body is not under `src/`.  `retry_calls` records one `(index, attempt+1, 3)`
entry per retry, right before the backoff sleep. -/
structure WorkerRun where
  outcome : Except String Bytes
  attempts_made : Nat
  retry_calls : List (Nat × Nat × Nat)
deriving DecidableEq, Repr

/-- The shared retry loop of `_generate_single_image` and
`_generate_single_image_refine` (`for attempt in range(max_retries)`).
`attempts k` is the upstream interaction on attempt `k`: either a response
object or a raised exception message.  A validation failure re-raises
immediately; any other exception retries (after a backoff sleep and a retry
notification) iff its message is transient and attempts remain, and otherwise
raises the quota message or `fail_text ++ msg`.  `fuel` starts at
`max_retries`; the `fuel = 0` branch is unreachable because a retry requires
`attempt < max_retries - 1`. -/
def attempt_loop (index : Nat) (validate : GeminiResponse → Except String Bytes)
    (quota_error : String) (fail_text : String)
    (attempts : Nat → Except String GeminiResponse) :
    Nat → Nat → List (Nat × Nat × Nat) → WorkerRun
  | 0, attempt, calls => ⟨.error "unreachable", attempt, calls⟩
  | fuel + 1, attempt, calls =>
    match attempts attempt with
    | .ok resp =>
      match validate resp with
      | .ok b => ⟨.ok b, attempt + 1, calls⟩
      | .error m => ⟨.error m, attempt + 1, calls⟩
    | .error msg =>
      if is_retryable_msg msg && decide (attempt < max_retries - 1) then
        attempt_loop index validate quota_error fail_text attempts
          fuel (attempt + 1) (calls ++ [(index, attempt + 1, max_retries)])
      else
        ⟨.error (if is_quota_msg msg then quota_error else fail_text ++ msg),
         attempt + 1, calls⟩

/-- The `NanaBananaClient._generate_single_image` for slot `index`. -/
def generate_single_image (index : Nat)
    (attempts : Nat → Except String GeminiResponse) : WorkerRun :=
  attempt_loop index (validate_generate_response index)
    ("API quota exceeded for image " ++ toString (index + 1)
      ++ ". Check quota at https://ai.dev/rate-limit")
    ("Failed to generate image " ++ toString (index + 1) ++ ": ")
    attempts max_retries 0 []

/-- The `NanaBananaClient._generate_single_image_refine` for slot `index`. -/
def refine_single_image (index : Nat)
    (attempts : Nat → Except String GeminiResponse) : WorkerRun :=
  attempt_loop index (validate_refine_response index)
    ("API quota exceeded for refine " ++ toString (index + 1)
      ++ ". Check quota at https://ai.dev/rate-limit")
    ("Failed to refine image " ++ toString (index + 1) ++ ": ")
    attempts max_retries 0 []

/-- The `future.result()` handling in `NanaBananaClient.generate`/`refine`:
a worker return lands in `results[idx]`, a raised exception is caught and its
message stored in `errors[idx]`.  This is the worker's boundary — nothing
propagates past it. -/
def worker_slot (run : WorkerRun) : Option Bytes × Option String :=
  match run.outcome with
  | .ok b => (some b, none)
  | .error e => (none, some e)

/-- The `NanaBananaClient.generate`: one thread per slot `0..num_images-1`, all
given the same prompt/reference payload; `as_completed` writes each outcome
into its own slot, so the final indexed lists are completion-order
independent. -/
def client_generate (num_images : Nat)
    (attempts : Nat → Nat → Except String GeminiResponse) :
    List (Option Bytes) × List (Option String) :=
  let slots := (List.range num_images).map
    (fun i => worker_slot (generate_single_image i (attempts i)))
  (slots.map (fun s => s.1), slots.map (fun s => s.2))

/-- One source image for `refine`: its path and the result of reading it
(`none` models an `open` that raised, caught with a warning). -/
structure SourceImage where
  path : String
  data : Option Bytes
deriving DecidableEq, Repr

/-- One slot of `NanaBananaClient.refine`: an unreadable source gets a per-slot
load error and no worker; a readable one runs the refine worker. -/
def refine_slot (i : Nat) (src : SourceImage)
    (attempts : Nat → Except String GeminiResponse) :
    Option Bytes × Option String :=
  match src.data with
  | none => (none, some ("Failed to load source image: " ++ src.path))
  | some _ => worker_slot (refine_single_image i attempts)

/-- The `NanaBananaClient.refine`: `results`/`errors` are initialised to
`[None] * len(source_images)` and filled per-slot. -/
def client_refine (sources : List SourceImage)
    (attempts : Nat → Nat → Except String GeminiResponse) :
    List (Option Bytes) × List (Option String) :=
  let slots := sources.enum.map (fun p => refine_slot p.1 p.2 (attempts p.1))
  (slots.map (fun s => s.1), slots.map (fun s => s.2))

/-! ## generate/types.py, generate/nano_banana.py, generate/generator.py -/

/-- The `GenerationConfig` from `src/generate/types.py`, with exactly the
fields the src dataclass declares.  In particular there is NO
`enforce_grayscale` field, although `nano_banana.py` reads
`config.enforce_grayscale` (see `config_enforce_grayscale`). -/
structure GenerationConfig where
  num_images : Nat := 4
  resolution : Int × Int := (1050, 1875)
  output_dir : String := "generated_outputs"
  model_name : String := "gemini-2.5-flash-image"
  seed : Option Int := none
  aspect_ratio : String := "9:16"
  image_size : String := "2K"
deriving DecidableEq, Repr

/-- The attribute read `config.enforce_grayscale` performed by
`nano_banana.py` (inside `_process_and_save`, lines 134/207, and
unconditionally in the status line, lines 153/226): the src
`GenerationConfig` dataclass declares no such field, so in the src snapshot
this read always raises `AttributeError` (message paraphrased without
quote characters). -/
def config_enforce_grayscale (config : GenerationConfig) :
    Except String Bool :=
  .error "AttributeError: GenerationConfig object has no attribute enforce_grayscale"

/-- The `NanaBananaAdapter.validate_config`: `num_images` must lie in 3..6 and the
resolution must be positive; a violation raises `ValueError`. -/
def validate_config (config : GenerationConfig) : Except String Bool :=
  if config.num_images < 3 ∨ 6 < config.num_images then
    .error ("num_images must be between 3 and 6, got " ++ toString config.num_images)
  else if config.resolution.1 ≤ 0 ∨ config.resolution.2 ≤ 0 then
    .error ("Invalid resolution: " ++ toString config.resolution.1 ++ "x"
      ++ toString config.resolution.2)
  else .ok true

/-- The file path `_process_and_save` writes slot `i` to:
`create_output_directory(config.output_dir, timestamp) / f"sketch_{i}.png"`
(absolute-path resolution omitted).  The path depends only on the slot index,
not on the image bytes. -/
def sketch_path (output_dir timestamp : String) (i : Nat) : String :=
  output_dir ++ "/" ++ timestamp ++ "/sketch_" ++ toString i ++ ".png"

/-- The path mapping the save loop of `_generate_images` / `refine` in
`nano_banana.py` would perform for the slots holding data
(`generated_paths = [None] * len(image_data_list)`, each slot with data gets
a `sketch_{i}.png` path).  It is reached only after the
`config.enforce_grayscale` attribute read, which always fails in the src
snapshot — see `generate_images` / `refine_images`. -/
def save_generated_paths (config : GenerationConfig) (timestamp : String)
    (data_list : List (Option Bytes)) : List (Option String) :=
  data_list.enum.map
    (fun p => p.2.map (fun _ => sketch_path config.output_dir timestamp p.1))

/-- The `NanaBananaAdapter._generate_images`: run the client fan-out, then the
save step.  Each `_process_and_save` worker first reads
`config.enforce_grayscale` (nano_banana.py:134) and the status line reads it
unconditionally (nano_banana.py:153); the attribute is missing from the src
dataclass, so the call raises `AttributeError` before returning — with or
without successful slots. -/
def generate_images (config : GenerationConfig) (timestamp : String)
    (attempts : Nat → Nat → Except String GeminiResponse) :
    Except String (List (Option String) × List (Option String)) :=
  let pair := client_generate config.num_images attempts
  match config_enforce_grayscale config with
  | .error e => .error e
  | .ok _ => .ok (save_generated_paths config timestamp pair.1, pair.2)

/-- The `NanaBananaAdapter.refine` save step, same structure as
`generate_images` (the unconditional `enforce_grayscale` read is
nano_banana.py:226). -/
def refine_images (config : GenerationConfig) (timestamp : String)
    (sources : List SourceImage)
    (attempts : Nat → Nat → Except String GeminiResponse) :
    Except String (List (Option String) × List (Option String)) :=
  let pair := client_refine sources attempts
  match config_enforce_grayscale config with
  | .error e => .error e
  | .ok _ => .ok (save_generated_paths config timestamp pair.1, pair.2)

/-- The `GenerationResult` dataclass exactly as `src/generate/types.py`
declares it: `images`, `metadata_path`, `timestamp`, `prompt_spec`,
`reference_images`, `config` — and no `image_errors` field. -/
structure GenerationResult where
  images : List (Option String)
  metadata_path : String
  timestamp : String
  prompt_spec : PromptSpec
  reference_images : List String
  config : GenerationConfig
deriving DecidableEq, Repr

/-- The constructor call `GenerationResult(images=..., image_errors=..., ...)`
made by `ImageGenerator.generate` and `ImageGenerator.refine`
(`src/generate/generator.py:73-81` and `272-280`): the src dataclass accepts
no `image_errors` keyword, so the call raises `TypeError`.  (In the src
snapshot this point is never even reached: the adapter raises first.) -/
def generation_result_init (images : List (Option String))
    (image_errors : List (Option String)) (timestamp : String)
    (prompt_spec : PromptSpec) (reference_images : List String)
    (config : GenerationConfig) : Except String GenerationResult :=
  .error "TypeError: GenerationResult() got an unexpected keyword argument image_errors"

/-- The `ImageGenerator.generate` composed with `NanaBananaAdapter.generate`
and `_generate_images`: validate the config (a `ValueError` aborts the whole
request before any worker is spawned), fan out `num_images` workers, then the
save step — which raises `AttributeError` in the src snapshot; were it to
return, the `GenerationResult(..., image_errors=...)` construction would
raise `TypeError` next. -/
def generator_generate (prompt_spec : PromptSpec)
    (retrieval_images : List String) (config : GenerationConfig)
    (timestamp : String)
    (attempts : Nat → Nat → Except String GeminiResponse) :
    Except String GenerationResult :=
  match validate_config config with
  | .error e => .error e
  | .ok _ =>
    match generate_images config timestamp attempts with
    | .error e => .error e
    | .ok pair =>
      generation_result_init pair.1 pair.2 timestamp prompt_spec
        retrieval_images config

/-- The `ImageGenerator.refine` composed with `NanaBananaAdapter.refine` and
`NanaBananaClient.refine`.  No `validate_config` on this path; it inherits
the same two crashes as the generate path. -/
def generator_refine (refine_prompt original_context : String)
    (refine_history : List String) (sources : List SourceImage)
    (style : Style) (config : GenerationConfig) (timestamp : String)
    (attempts : Nat → Nat → Except String GeminiResponse) :
    Except String GenerationResult :=
  match refine_images config timestamp sources attempts with
  | .error e => .error e
  | .ok pair =>
    generation_result_init pair.1 pair.2 timestamp
      { intent := refine_prompt, refined_intent := original_context,
        style_id := style.id }
      (sources.map (fun s => s.path)) config

/-! ## api/services/pipeline.py -/

/-- The `PipelineService.refine`, step 3 (`src/api/services/pipeline.py:576-590`):
the config is built with `num_images := len(selected_image_paths)` and handed
to `ImageGenerator.refine`. -/
def pipeline_refine (refine_prompt : String) (selected : List SourceImage)
    (style : Style) (original_context : String) (refine_history : List String)
    (timestamp : String)
    (attempts : Nat → Nat → Except String GeminiResponse) :
    Except String GenerationResult :=
  let config : GenerationConfig :=
    { num_images := selected.length, resolution := (1024, 1024),
      output_dir := "generated_outputs" }
  generator_refine refine_prompt original_context refine_history selected
    style config timestamp attempts

/-- The call `context.to_gpt_messages(exclude_roles=["refine"])` made by
`PipelineService.generate` step 2 (`src/api/services/pipeline.py:249`): the
src method is `def to_gpt_messages(self)` and accepts no keyword argument,
so passing `exclude_roles` raises `TypeError` (message paraphrased without
quote characters); calling without it renders the turns. -/
def to_gpt_messages_call (turns : List ConversationTurn)
    (exclude_roles : Option (List String)) :
    Except String (List ChatMessage) :=
  match exclude_roles with
  | none => .ok (to_gpt_messages turns)
  | some _ =>
    .error "TypeError: to_gpt_messages() got an unexpected keyword argument exclude_roles"

/-- The `PipelineService.generate`, step 2 (`src/api/services/pipeline.py:244-254`):
with a session id, load the context and — only if it already has turns —
call `to_gpt_messages(exclude_roles=["refine"])` to build the history for
`PromptCompiler.compile`.  In the src snapshot that call raises. -/
def conversation_history_for (d : SessionDict) (session_id style_id : String) :
    Except String (Option (List ChatMessage)) :=
  let ctx := (get_or_create d session_id style_id).1
  if 0 < ctx.turn_count then
    (to_gpt_messages_call ctx.turns (some ["refine"])).map some
  else .ok none

/-- The mutable state `PipelineService.add_feedback` / `summarize_feedback`
touch: the in-memory session store and the durable per-style
`feedback_summary` field of `style.json` (the field `update_style_json`
would write). -/
structure FeedbackState where
  sessions : SessionDict
  style_summaries : String → Option String

/-- The attribute read `style.feedback_summary` at
`src/api/services/pipeline.py:803`: `StyleRegistry.get_style` returns the
src `Style` dataclass, which declares no `feedback_summary` field, so the
read raises `AttributeError` (message paraphrased without quote
characters). -/
def style_feedback_summary : Except String String :=
  .error "AttributeError: Style object has no attribute feedback_summary"

/-- The `PipelineService.summarize_feedback`.  `gpt` models the opaque
chat-completion call.  With no feedback texts the method returns `None`
early; otherwise it reads `style.feedback_summary or ""` — which raises in
the src snapshot, before the summary is computed, persisted or the session
reset.  The result pairs the returned value (or propagated exception) with
the state as it stands afterwards (Python mutations are not rolled back). -/
def summarize_feedback (gpt : String → List String → String)
    (st : FeedbackState) (session_id style_id : String) :
    Except String (Option String) × FeedbackState :=
  let p := get_or_create st.sessions session_id style_id
  let feedback_texts := p.1.get_feedback_texts
  if feedback_texts = [] then (.ok none, { st with sessions := p.2 })
  else
    match style_feedback_summary with
    | .error e => (.error e, { st with sessions := p.2 })
    | .ok existing_summary =>
      let summary := gpt existing_summary feedback_texts
      (.ok (some summary),
       { sessions := store_reset p.2 session_id style_id,
         style_summaries :=
           fun s => if s = style_id then some summary else st.style_summaries s })

/-- The `PipelineService.add_feedback` (`src/api/services/pipeline.py:750-781`):
append a `feedback` turn (numbered `turn_count + 1`), then — if the context
has reached 10 feedback turns — call `summarize_feedback`, whose exception
propagates out of `add_feedback` (the appended turn stays in the store).
Returns `(turn_number, was_summarized)` or the propagated exception, with the
state afterwards. -/
def add_feedback (gpt : String → List String → String) (st : FeedbackState)
    (session_id style_id feedback timestamp : String) :
    Except String (Nat × Bool) × FeedbackState :=
  let p := get_or_create st.sessions session_id style_id
  let turn : ConversationTurn :=
    { turn_number := p.1.turn_count + 1, role := "feedback",
      timestamp := timestamp, user_input := feedback, style_id := style_id }
  let ctx_app : ConversationContext := { p.1 with turns := p.1.turns ++ [turn] }
  let st1 : FeedbackState :=
    { st with sessions := dict_set p.2 (session_key session_id style_id) ctx_app }
  if 10 ≤ ctx_app.feedback_count then
    let q := summarize_feedback gpt st1 session_id style_id
    match q.1 with
    | .error e => (.error e, q.2)
    | .ok _ => (.ok (turn.turn_number, true), q.2)
  else
    (.ok (turn.turn_number, false), st1)

/-! ## Concrete instances used by witnesses and counterexamples -/

/-- Stand-in for `math.sqrt` in concrete evaluations: every norm arising from
the concrete vectors below is 0 or 1, where the identity agrees with the real
square root. -/
def sqrt_id : ℚ → ℚ := fun q => q

/-- First reference image of the demo index (unit vector along axis 0). -/
def emb0 : ImageEmbedding :=
  { image_path := "img0", embedding := [1, 0], style_id := "default" }

/-- Second reference image of the demo index (unit vector along axis 1). -/
def emb1 : ImageEmbedding :=
  { image_path := "img1", embedding := [0, 1], style_id := "default" }

/-- A style with no exclusions. -/
def style_plain : Style :=
  { id := "default", name := "Default", description := "demo" }

/-- A style whose exclusion set contains the demo index's first image. -/
def style_excl0 : Style :=
  { id := "default", name := "Default", description := "demo",
    do_not_use := ["img0"] }

/-- A compiled prompt over the demo style. -/
def mk_spec (intent refined : String) : PromptSpec :=
  { intent := intent, refined_intent := refined, style_id := "default" }

/-- An upstream that reports a transient failure on every attempt. -/
def transient_attempts : Nat → Except String GeminiResponse :=
  fun _ => .error "503 Service Unavailable"

/-- A well-formed response whose first part carries PNG bytes. -/
def ok_response : GeminiResponse :=
  { candidates := [{ parts := [{ inline_data := some [0x89, 0x50, 0x4E, 0x47, 1] }] }] }

/-- Demo per-slot upstream: slot 0 succeeds at once, every other slot fails
terminally (a non-transient message). -/
def demo_attempts : Nat → Nat → Except String GeminiResponse :=
  fun i _ => if i = 0 then .ok ok_response else .error "boom"

/-- Demo refine sources: one readable, one unreadable. -/
def demo_sources : List SourceImage :=
  [{ path := "a.png", data := some [0x89, 0x50, 0x4E, 0x47] },
   { path := "b.png", data := none }]

/-- A valid generation config (3 ≤ num_images ≤ 6). -/
def demo_config : GenerationConfig :=
  { num_images := 3, resolution := (1024, 1024), output_dir := "generated_outputs" }

/-- A context holding nine feedback turns. -/
def nine_feedback_turns : List ConversationTurn :=
  (List.range 9).map (fun i =>
    { turn_number := i + 1, role := "feedback", timestamp := "t",
      user_input := "fb" ++ toString i, style_id := "d" })

/-- The demo conversation context at key `s::d` with nine feedback turns. -/
def nine_feedback_context : ConversationContext :=
  { session_id := "s", style_id := "d", turns := nine_feedback_turns }

/-- A session dict holding `nine_feedback_context` under key `s::d`. -/
def demo_sessions : SessionDict :=
  dict_set (fun _ => none) (session_key "s" "d") nine_feedback_context

/-- Demo pipeline state: the session above, no style summaries yet. -/
def demo_state : FeedbackState :=
  { sessions := demo_sessions, style_summaries := fun _ => none }

/-- An opaque summarizer returning a fixed summary. -/
def gpt_const : String → List String → String := fun _ _ => "SUMMARY"

/-- A generate-role turn. -/
def gen_turn : ConversationTurn :=
  { turn_number := 1, role := "generate", timestamp := "t",
    user_input := "draw a bull", style_id := "d",
    refined_intent := some "a bull", negative_constraints := some ["color"],
    image_paths := some [some "p0", none] }

/-- A refine-role turn. -/
def refine_turn : ConversationTurn :=
  { turn_number := 2, role := "refine", timestamp := "t",
    user_input := "make it bigger", style_id := "d",
    refined_intent := some "a bull", image_paths := some [some "p1"] }

/-- A feedback-role turn. -/
def feedback_turn : ConversationTurn :=
  { turn_number := 3, role := "feedback", timestamp := "t",
    user_input := "lines too thin", style_id := "d" }

/-- A context mixing generate, refine and feedback turns. -/
def mixed_context : ConversationContext :=
  { session_id := "s", style_id := "d",
    turns := [gen_turn, refine_turn, feedback_turn] }

/-- A session dict holding `mixed_context` under key `s::d`. -/
def mixed_sessions : SessionDict :=
  dict_set (fun _ => none) (session_key "s" "d") mixed_context

/-- The turn used to demonstrate the key collision of claim C9. -/
def collision_turn : ConversationTurn :=
  { turn_number := 1, role := "feedback", timestamp := "t",
    user_input := "collides", style_id := "c" }

/-! ## Helper lemmas -/

theorem filter_score_orderedInsert {α : Type} (x : ℚ × α) (l : List (ℚ × α)) (s : ℚ) :
    (List.orderedInsert scoreGe x l).filter (fun p => decide (p.1 = s)) =
      if x.1 = s then x :: l.filter (fun p => decide (p.1 = s))
      else l.filter (fun p => decide (p.1 = s)) := by
  induction l with
  | nil =>
    by_cases hx : x.1 = s <;>
      simp [List.orderedInsert, List.filter_cons, hx]
  | cons y ys ih =>
    by_cases hxy : scoreGe x y
    · rw [List.orderedInsert, if_pos hxy]
      by_cases hx : x.1 = s <;> simp [List.filter_cons, hx]
    · rw [List.orderedInsert, if_neg hxy]
      by_cases hy : y.1 = s
      · have hx : ¬ x.1 = s := by
          intro hx
          exact hxy (by simp [scoreGe, hy, hx])
        simp [List.filter_cons, hy, hx, ih]
      · simp [List.filter_cons, hy, ih]

theorem filter_score_insertionSort {α : Type} (l : List (ℚ × α)) (s : ℚ) :
    (List.insertionSort scoreGe l).filter (fun p => decide (p.1 = s)) =
      l.filter (fun p => decide (p.1 = s)) := by
  induction l with
  | nil => rfl
  | cons x xs ih =>
    rw [List.insertionSort, filter_score_orderedInsert, ih]
    by_cases hx : x.1 = s <;> simp [List.filter_cons, hx]

theorem to_gpt_messages_foldl (l : List ConversationTurn) (acc : List ChatMessage) :
    l.foldl (fun messages t => messages ++ turn_messages t) acc =
      acc ++ l.flatMap turn_messages := by
  induction l generalizing acc with
  | nil => simp
  | cons t ts ih => simp [List.foldl_cons, ih]

theorem to_gpt_messages_eq_flatMap (l : List ConversationTurn) :
    to_gpt_messages l = l.flatMap turn_messages := by
  simpa using to_gpt_messages_foldl l []

theorem turn_messages_refine (t : ConversationTurn) (h : t.role = "refine") :
    turn_messages t = [] := by
  simp [turn_messages, h]

theorem flatMap_turn_messages_filter_refine (l : List ConversationTurn) :
    l.flatMap turn_messages =
      (l.filter (fun t => !decide (t.role = "refine"))).flatMap turn_messages := by
  induction l with
  | nil => rfl
  | cons t ts ih =>
    by_cases ht : t.role = "refine"
    · simp [List.filter_cons, ht, turn_messages_refine t ht, ih]
    · simp [List.filter_cons, ht, ih]

theorem feedback_count_append_feedback (c : ConversationContext)
    (t : ConversationTurn) (h : t.role = "feedback") :
    ConversationContext.feedback_count { c with turns := c.turns ++ [t] } =
      c.feedback_count + 1 := by
  simp [ConversationContext.feedback_count, List.filter_append, List.filter_cons, h]

theorem get_feedback_texts_append_feedback (c : ConversationContext)
    (t : ConversationTurn) (h : t.role = "feedback") :
    ConversationContext.get_feedback_texts { c with turns := c.turns ++ [t] } =
      c.get_feedback_texts ++ [t.user_input] := by
  simp [ConversationContext.get_feedback_texts, List.filter_append, List.filter_cons, h]

/-! ## Claim theorems -/

/-- C10: `cosine_similarity` is a total function: whenever either vector is
empty, the lengths differ, or either computed norm is zero, it returns 0.0
instead of failing; a dimension-mismatched embedding therefore scores 0.0. -/
theorem c10_cosine_similarity_total_guards (sqrt : ℚ → ℚ) (vec1 vec2 : List ℚ) :
    (vec1 = [] → cosine_similarity sqrt vec1 vec2 = 0) ∧
    (vec2 = [] → cosine_similarity sqrt vec1 vec2 = 0) ∧
    (vec1.length ≠ vec2.length → cosine_similarity sqrt vec1 vec2 = 0) ∧
    (sqrt ((vec1.map (fun a => a * a)).sum) = 0 →
      cosine_similarity sqrt vec1 vec2 = 0) ∧
    (sqrt ((vec2.map (fun b => b * b)).sum) = 0 →
      cosine_similarity sqrt vec1 vec2 = 0) := by
  refine ⟨?_, ?_, ?_, ?_, ?_⟩ <;> intro h
  · simp [cosine_similarity, h]
  · simp [cosine_similarity, h]
  · simp [cosine_similarity, h]
  · unfold cosine_similarity
    split
    · rfl
    · simp [h]
  · unfold cosine_similarity
    split
    · rfl
    · simp [h]

/-- Witness for C10 at concrete inputs: empty vector, length mismatch, and a
zero-norm vector all score 0. -/
theorem c10_witness :
    cosine_similarity sqrt_id [] [1] = 0 ∧
    cosine_similarity sqrt_id [1, 2] [3] = 0 ∧
    cosine_similarity sqrt_id [0] [1] = 0 :=
  ⟨(c10_cosine_similarity_total_guards sqrt_id [] [1]).1 rfl,
   (c10_cosine_similarity_total_guards sqrt_id [1, 2] [3]).2.2.1 (by norm_num),
   (c10_cosine_similarity_total_guards sqrt_id [0] [1]).2.2.2.1 (by norm_num [sqrt_id])⟩

/-- C9: `SessionStore.get_or_create` keys contexts by the string concatenation
`session_id ++ "::" ++ style_id`, so two calls share one context slot exactly
when the concatenated keys agree — not when the pairs agree: the distinct
pairs `("a::b", "c")` and `("a", "b::c")` collide on key `a::b::c` and
interleave their turn histories, while different keys never observe each
other's turns. -/
theorem c9_session_key_collision :
    (∀ (s1 t1 s2 t2 : String) (d : SessionDict),
        session_key s1 t1 = session_key s2 t2 →
          get_or_create (get_or_create d s1 t1).2 s2 t2 =
            ((get_or_create d s1 t1).1, (get_or_create d s1 t1).2)) ∧
    (∀ (s1 t1 s2 t2 : String) (d : SessionDict) (turn : ConversationTurn),
        session_key s1 t1 ≠ session_key s2 t2 →
          (get_or_create (store_add_turn d s1 t1 turn) s2 t2).1 =
            (get_or_create d s2 t2).1) ∧
    session_key "a::b" "c" = session_key "a" "b::c" ∧
    ("a::b", "c") ≠ ("a", "b::c") ∧
    (get_or_create (store_add_turn (fun _ => none) "a::b" "c" collision_turn)
        "a" "b::c").1.turns = [collision_turn] := by
  refine ⟨?_, ?_, by decide, by decide, by decide⟩
  · intro s1 t1 s2 t2 d h
    simp only [get_or_create, ← h]
    cases hd : d (session_key s1 t1) with
    | some ctx => simp [hd]
    | none => simp [hd, dict_set]
  · intro s1 t1 s2 t2 d turn h
    have hne : session_key s2 t2 ≠ session_key s1 t1 := fun hh => h hh.symm
    cases hd : d (session_key s1 t1) with
    | some ctx =>
      simp only [get_or_create, store_add_turn, hd,
        dict_set_other _ _ _ _ hne]
      cases he : d (session_key s2 t2) <;> simp [he]
    | none =>
      simp only [get_or_create, store_add_turn, hd,
        dict_set_other _ _ _ _ hne]
      cases he : d (session_key s2 t2) <;> simp [he]

/-- Witness for C9's universally quantified parts: equal keys share the slot,
different keys are independent. -/
theorem c9_witness :
    get_or_create (get_or_create (fun _ => none) "x" "y").2 "x" "y" =
      ((get_or_create (fun _ => none) "x" "y").1,
       (get_or_create (fun _ => none) "x" "y").2) ∧
    (get_or_create (store_add_turn (fun _ => none) "x" "y" collision_turn)
        "u" "v").1 =
      (get_or_create (fun _ => none) "u" "v").1 :=
  ⟨c9_session_key_collision.1 "x" "y" "x" "y" (fun _ => none) rfl,
   c9_session_key_collision.2.1 "x" "y" "u" "v" (fun _ => none) collision_turn
     (by decide)⟩

/-- C1: a worker whose upstream fails transiently (HTTP 503/429 or an
"unavailable" signal) on every attempt makes exactly 3 attempts, returns a
terminal error outcome through the worker boundary (`results`/`errors` slots)
rather than raising past it, and triggers the retry hook exactly twice; a
non-transient upstream exception or a validation failure (no candidates /
no content / no image data) is terminal on the first attempt with no retry. -/
theorem c1_worker_retry_bound (index : Nat)
    (attempts : Nat → Except String GeminiResponse) :
    ((∀ k, k < max_retries →
        ∃ m, attempts k = .error m ∧ is_retryable_msg m = true) →
      ∃ e, generate_single_image index attempts =
          { outcome := .error e, attempts_made := 3,
            retry_calls := [(index, 1, 3), (index, 2, 3)] } ∧
        worker_slot (generate_single_image index attempts) = (none, some e)) ∧
    (∀ m, attempts 0 = .error m → is_retryable_msg m = false →
      ∃ e, generate_single_image index attempts =
          { outcome := .error e, attempts_made := 1, retry_calls := [] } ∧
        worker_slot (generate_single_image index attempts) = (none, some e)) ∧
    (∀ resp e0, attempts 0 = .ok resp →
      validate_generate_response index resp = .error e0 →
      generate_single_image index attempts =
          { outcome := .error e0, attempts_made := 1, retry_calls := [] } ∧
        worker_slot (generate_single_image index attempts) = (none, some e0)) := by
  refine ⟨?_, ?_, ?_⟩
  · intro h
    obtain ⟨m0, h0, r0⟩ := h 0 (by norm_num [max_retries])
    obtain ⟨m1, h1, r1⟩ := h 1 (by norm_num [max_retries])
    obtain ⟨m2, h2, r2⟩ := h 2 (by norm_num [max_retries])
    have hrun : generate_single_image index attempts =
        { outcome := .error (if is_quota_msg m2 then
            "API quota exceeded for image " ++ toString (index + 1)
              ++ ". Check quota at https://ai.dev/rate-limit"
          else "Failed to generate image " ++ toString (index + 1) ++ ": " ++ m2),
          attempts_made := 3, retry_calls := [(index, 1, 3), (index, 2, 3)] } := by
      simp [generate_single_image, attempt_loop, max_retries, h0, h1, h2, r0, r1, r2]
    exact ⟨_, hrun, by rw [hrun]; rfl⟩
  · intro m hm hr
    have hrun : generate_single_image index attempts =
        { outcome := .error (if is_quota_msg m then
            "API quota exceeded for image " ++ toString (index + 1)
              ++ ". Check quota at https://ai.dev/rate-limit"
          else "Failed to generate image " ++ toString (index + 1) ++ ": " ++ m),
          attempts_made := 1, retry_calls := [] } := by
      simp [generate_single_image, attempt_loop, max_retries, hm, hr]
    exact ⟨_, hrun, by rw [hrun]; rfl⟩
  · intro resp e0 ha hv
    have hrun : generate_single_image index attempts =
        { outcome := .error e0, attempts_made := 1, retry_calls := [] } := by
      simp [generate_single_image, attempt_loop, max_retries, ha, hv]
    exact ⟨hrun, by rw [hrun]; rfl⟩

/-- Witness for C1: an always-503 upstream yields 3 attempts, two retry-hook
calls and a terminal error outcome; a non-transient upstream failure yields one
attempt and no retries. -/
theorem c1_witness :
    (∃ e, generate_single_image 0 transient_attempts =
        { outcome := .error e, attempts_made := 3,
          retry_calls := [(0, 1, 3), (0, 2, 3)] } ∧
      worker_slot (generate_single_image 0 transient_attempts) = (none, some e)) ∧
    (∃ e, generate_single_image 1 (fun _ => .error "boom") =
        { outcome := .error e, attempts_made := 1, retry_calls := [] } ∧
      worker_slot (generate_single_image 1 (fun _ => .error "boom")) =
        (none, some e)) :=
  ⟨(c1_worker_retry_bound 0 transient_attempts).1
      (fun k _ => ⟨"503 Service Unavailable", rfl, by decide⟩),
   (c1_worker_retry_bound 1 (fun _ => .error "boom")).2.1 "boom" rfl (by decide)⟩

theorem worker_slot_isSome_iff (run : WorkerRun) :
    ((worker_slot run).1.isSome ↔ (worker_slot run).2.isNone) := by
  cases hrun : run.outcome <;> simp [worker_slot, hrun]

theorem refine_slot_isSome_iff (i : Nat) (src : SourceImage)
    (attempts : Nat → Except String GeminiResponse) :
    ((refine_slot i src attempts).1.isSome ↔
      (refine_slot i src attempts).2.isNone) := by
  cases hsrc : src.data with
  | none => simp [refine_slot, hsrc]
  | some b =>
    simp only [refine_slot, hsrc]
    exact worker_slot_isSome_iff _

/-- C5 (refuted by the code): the generate pipeline NEVER returns a
`GenerationResult` in the src snapshot — with any valid config the adapter
save step raises `AttributeError` on the missing
`config.enforce_grayscale` (and result construction would raise `TypeError`
on the `image_errors` keyword next).  The per-slot exclusivity the claim
asserts does hold of the lists the worker boundary produces: each of the
`num_images` slots carries bytes XOR an error string. -/
theorem c5_generation_result_unreachable :
    (∀ (prompt_spec : PromptSpec) (retrieval_images : List String)
        (config : GenerationConfig) (timestamp : String)
        (attempts : Nat → Nat → Except String GeminiResponse),
        validate_config config = .ok true →
        generator_generate prompt_spec retrieval_images config timestamp attempts
          = .error "AttributeError: GenerationConfig object has no attribute enforce_grayscale") ∧
    (∀ (num_images : Nat)
        (attempts : Nat → Nat → Except String GeminiResponse),
        (client_generate num_images attempts).1.length = num_images ∧
        (client_generate num_images attempts).2.length = num_images ∧
        (∀ i, i < num_images →
          ∃ bo eo, (client_generate num_images attempts).1[i]? = some bo ∧
            (client_generate num_images attempts).2[i]? = some eo ∧
            (bo.isSome ↔ eo.isNone))) := by
  constructor
  · intro prompt_spec retrieval_images config timestamp attempts h
    simp [generator_generate, h, generate_images, config_enforce_grayscale]
  · intro num_images attempts
    refine ⟨by simp [client_generate], by simp [client_generate], ?_⟩
    intro i hi
    refine ⟨(worker_slot (generate_single_image i (attempts i))).1,
      (worker_slot (generate_single_image i (attempts i))).2, ?_, ?_, ?_⟩
    · simp [client_generate, List.getElem?_map, List.getElem?_range, hi]
    · simp [client_generate, List.getElem?_map, List.getElem?_range, hi]
    · exact worker_slot_isSome_iff (generate_single_image i (attempts i))

/-- Witness for C5: a valid 3-image config crashes with the `AttributeError`,
while slot 0 of the underlying worker boundary satisfies the exclusivity. -/
theorem c5_witness :
    generator_generate (mk_spec "i" "r") [] demo_config "ts" demo_attempts =
      .error "AttributeError: GenerationConfig object has no attribute enforce_grayscale" ∧
    (∃ bo eo, (client_generate 3 demo_attempts).1[0]? = some bo ∧
      (client_generate 3 demo_attempts).2[0]? = some eo ∧
      (bo.isSome ↔ eo.isNone)) :=
  ⟨(c5_generation_result_unreachable.1 (mk_spec "i" "r") [] demo_config "ts"
      demo_attempts (by decide)),
   ((c5_generation_result_unreachable.2 3 demo_attempts).2.2 0 (by norm_num))⟩

/-- C8 (refuted by the code): the refine pipeline never returns a result in
the src snapshot — every call raises `AttributeError` on the missing
`config.enforce_grayscale` (and result construction would raise `TypeError`
on `image_errors` next), so no N-slot result materialises.  The 1:1 mapping
the claim asserts does hold of the client layer: `NanaBananaClient.refine`
builds per-slot lists of length N, slot `i` a function of source `i` and its
own upstream stream only, an unreadable source yielding a per-slot load error
without disturbing the sibling slots. -/
theorem c8_refine_raises_before_result :
    (∀ (refine_prompt : String) (selected : List SourceImage) (style : Style)
        (original_context : String) (refine_history : List String)
        (timestamp : String)
        (attempts : Nat → Nat → Except String GeminiResponse),
        pipeline_refine refine_prompt selected style original_context
            refine_history timestamp attempts =
          .error "AttributeError: GenerationConfig object has no attribute enforce_grayscale") ∧
    (∀ (sources : List SourceImage)
        (attempts : Nat → Nat → Except String GeminiResponse),
        (client_refine sources attempts).1.length = sources.length ∧
        (client_refine sources attempts).2.length = sources.length ∧
        (∀ (i : Nat) (src : SourceImage), sources[i]? = some src →
          (client_refine sources attempts).1[i]? =
            some ((refine_slot i src (attempts i)).1) ∧
          (client_refine sources attempts).2[i]? =
            some ((refine_slot i src (attempts i)).2)) ∧
        (∀ (i : Nat) (src : SourceImage), sources[i]? = some src →
          src.data = none →
          (client_refine sources attempts).1[i]? = some none ∧
          (client_refine sources attempts).2[i]? =
            some (some ("Failed to load source image: " ++ src.path)))) := by
  constructor
  · intro refine_prompt selected style original_context refine_history
      timestamp attempts
    simp [pipeline_refine, generator_refine, refine_images,
      config_enforce_grayscale]
  · intro sources attempts
    have hslot : ∀ (i : Nat) (src : SourceImage), sources[i]? = some src →
        (client_refine sources attempts).1[i]? =
          some ((refine_slot i src (attempts i)).1) ∧
        (client_refine sources attempts).2[i]? =
          some ((refine_slot i src (attempts i)).2) := by
      intro i src hsrc
      have hi : i < sources.length := by
        by_contra hlt
        rw [List.getElem?_eq_none (le_of_not_lt hlt)] at hsrc
        exact absurd hsrc (by simp)
      have hget : sources[i] = src := by
        have h2 := hsrc
        rw [List.getElem?_eq_getElem hi] at h2
        exact Option.some.inj h2
      constructor
      · simp [client_refine, List.getElem?_map, List.getElem?_enum, hi,
          List.getElem?_eq_getElem, hget]
      · simp [client_refine, List.getElem?_map, List.getElem?_enum, hi,
          List.getElem?_eq_getElem, hget]
    refine ⟨by simp [client_refine], by simp [client_refine], hslot, ?_⟩
    intro i src hsrc hdata
    obtain ⟨h1, h2⟩ := hslot i src hsrc
    rw [h1, h2]
    simp [refine_slot, hdata]

/-- Witness for C8: a concrete refine call crashes with the `AttributeError`;
at the client layer the unreadable second source yields a per-slot load error
in slot 1 only. -/
theorem c8_witness :
    pipeline_refine "edit" demo_sources style_plain "orig" [] "ts"
        demo_attempts =
      .error "AttributeError: GenerationConfig object has no attribute enforce_grayscale" ∧
    (client_refine demo_sources demo_attempts).1[1]? = some none ∧
    (client_refine demo_sources demo_attempts).2[1]? =
      some (some ("Failed to load source image: " ++ "b.png")) := by
  obtain ⟨-, -, -, hun⟩ :=
    c8_refine_raises_before_result.2 demo_sources demo_attempts
  obtain ⟨hp, he⟩ := hun 1 { path := "b.png", data := none } (by decide) rfl
  exact ⟨c8_refine_raises_before_result.1 "edit" demo_sources style_plain
    "orig" [] "ts" demo_attempts, hp, he⟩

theorem get_or_create_set_self (d : SessionDict) (sid stid : String)
    (c : ConversationContext) :
    get_or_create (dict_set d (session_key sid stid) c) sid stid =
      (c, dict_set d (session_key sid stid) c) := by
  simp [get_or_create, dict_set_self]

theorem get_or_create_pop_self (d : SessionDict) (sid stid : String) :
    (get_or_create (dict_pop d (session_key sid stid)) sid stid).1 =
      { session_id := sid, style_id := stid, turns := [] } := by
  simp [get_or_create, dict_pop]

/-- C4 (refuted by the code): with a session whose context already has turns,
`PipelineService.generate` calls
`context.to_gpt_messages(exclude_roles=["refine"])`, but the src method
accepts no such keyword — the call raises `TypeError` and no message list
ever reaches the prompt compiler; without prior turns no call is made at
all.  The rendering the claim describes would hold of the src renderer:
dropping refine-role turns changes nothing (they produce no messages), a
generate turn renders as a paired user/assistant message and a feedback turn
as a single user message. -/
theorem c4_exclude_roles_type_error (d : SessionDict)
    (session_id style_id : String) :
    (0 < (get_or_create d session_id style_id).1.turn_count →
      conversation_history_for d session_id style_id =
        .error "TypeError: to_gpt_messages() got an unexpected keyword argument exclude_roles") ∧
    ((get_or_create d session_id style_id).1.turn_count = 0 →
      conversation_history_for d session_id style_id = .ok none) ∧
    (∀ turns : List ConversationTurn,
      to_gpt_messages turns =
        to_gpt_messages (turns.filter (fun t => !decide (t.role = "refine"))) ∧
      to_gpt_messages turns = turns.flatMap (fun t =>
        if t.role = "generate" then
          [{ role := "user", content := "[Generation Request] " ++ t.user_input },
           { role := "assistant", content := generate_assistant_content t }]
        else if t.role = "feedback" then
          [{ role := "user", content := "[Feedback] " ++ t.user_input }]
        else [])) := by
  refine ⟨?_, ?_, ?_⟩
  · intro h
    simp [conversation_history_for, to_gpt_messages_call, h, Except.map]
  · intro h
    simp [conversation_history_for, h]
  · intro turns
    constructor
    · rw [to_gpt_messages_eq_flatMap, to_gpt_messages_eq_flatMap]
      exact flatMap_turn_messages_filter_refine _
    · rw [to_gpt_messages_eq_flatMap]
      rfl

/-- Witness for C4: the call crashes on a context holding a generate, a
refine and a feedback turn, and is skipped on an empty context. -/
theorem c4_witness :
    conversation_history_for mixed_sessions "s" "d" =
      .error "TypeError: to_gpt_messages() got an unexpected keyword argument exclude_roles" ∧
    conversation_history_for (fun _ => none) "s" "d" = .ok none :=
  ⟨(c4_exclude_roles_type_error mixed_sessions "s" "d").1 (by decide),
   (c4_exclude_roles_type_error (fun _ => none) "s" "d").2.1 (by decide)⟩

theorem feedback_count_append_turn (c : ConversationContext) (n : Nat)
    (ts fb stid : String) :
    (ConversationContext.feedback_count { c with turns := c.turns ++
      [{ turn_number := n, role := "feedback", timestamp := ts,
         user_input := fb, style_id := stid }] }) = c.feedback_count + 1 :=
  feedback_count_append_feedback c _ rfl

theorem get_feedback_texts_append_turn (c : ConversationContext) (n : Nat)
    (ts fb stid : String) :
    (ConversationContext.get_feedback_texts { c with turns := c.turns ++
      [{ turn_number := n, role := "feedback", timestamp := ts,
         user_input := fb, style_id := stid }] }) =
      c.get_feedback_texts ++ [fb] :=
  get_feedback_texts_append_feedback c _ rfl

/-- C7 (refuted by the code): the feedback turn that lifts a context's
cumulative feedback count to 10 triggers `summarize_feedback`, which raises
`AttributeError` reading the missing `style.feedback_summary`
(`src/api/services/pipeline.py:803`) BEFORE any summary is computed,
persisted, or the session reset — the exception propagates out of
`add_feedback`, the style record is untouched and the context keeps its 10
turns (turnCount is old + 1, not 0).  A feedback turn that leaves the count
below 10 behaves as the claim says: no summarization, no reset, the turn
appended. -/
theorem c7_tenth_feedback_raises (gpt : String → List String → String)
    (st : FeedbackState) (session_id style_id feedback timestamp : String) :
    ((get_or_create st.sessions session_id style_id).1.feedback_count = 9 →
      (add_feedback gpt st session_id style_id feedback timestamp).1 =
        .error "AttributeError: Style object has no attribute feedback_summary" ∧
      (add_feedback gpt st session_id style_id feedback timestamp).2.style_summaries
        = st.style_summaries ∧
      (get_or_create
          (add_feedback gpt st session_id style_id feedback timestamp).2.sessions
          session_id style_id).1.turn_count =
        (get_or_create st.sessions session_id style_id).1.turn_count + 1 ∧
      (get_or_create
          (add_feedback gpt st session_id style_id feedback timestamp).2.sessions
          session_id style_id).1.feedback_count = 10) ∧
    ((get_or_create st.sessions session_id style_id).1.feedback_count < 9 →
      (add_feedback gpt st session_id style_id feedback timestamp).1 =
        .ok ((get_or_create st.sessions session_id style_id).1.turn_count + 1,
          false) ∧
      (add_feedback gpt st session_id style_id feedback timestamp).2.style_summaries
        = st.style_summaries ∧
      (get_or_create
          (add_feedback gpt st session_id style_id feedback timestamp).2.sessions
          session_id style_id).1.turns =
        (get_or_create st.sessions session_id style_id).1.turns ++
          [{ turn_number :=
               (get_or_create st.sessions session_id style_id).1.turn_count + 1,
             role := "feedback", timestamp := timestamp, user_input := feedback,
             style_id := style_id }]) := by
  constructor
  · intro h9
    have hten : (10 : Nat) ≤
        (get_or_create st.sessions session_id style_id).1.feedback_count + 1 := by
      rw [h9]
    have hne : (get_or_create st.sessions session_id style_id).1.get_feedback_texts
        ++ [feedback] ≠ [] := by simp
    simp only [add_feedback, feedback_count_append_turn]
    rw [if_pos hten]
    simp only [summarize_feedback, get_or_create_set_self,
      get_feedback_texts_append_turn]
    rw [if_neg hne]
    simp only [style_feedback_summary]
    refine ⟨by trivial, by trivial, ?_, ?_⟩
    · rw [get_or_create_set_self]
      simp [ConversationContext.turn_count]
    · rw [get_or_create_set_self]
      rw [feedback_count_append_turn, h9]
  · intro hlt
    have hnt : ¬ (10 : Nat) ≤
        (get_or_create st.sessions session_id style_id).1.feedback_count + 1 := by
      omega
    simp only [add_feedback, feedback_count_append_turn]
    rw [if_neg hnt]
    simp only [get_or_create_set_self]
    exact ⟨by trivial, by trivial, by trivial⟩

/-- Witness for C7: the tenth feedback turn raises the `AttributeError`,
persists nothing, and leaves ten feedback turns in the context; the first
feedback turn in a fresh context succeeds without summarizing. -/
theorem c7_witness :
    (add_feedback gpt_const demo_state "s" "d" "tenth" "t2").1 =
      .error "AttributeError: Style object has no attribute feedback_summary" ∧
    (add_feedback gpt_const demo_state "s" "d" "tenth" "t2").2.style_summaries =
      demo_state.style_summaries ∧
    (get_or_create (add_feedback gpt_const demo_state "s" "d" "tenth"
        "t2").2.sessions "s" "d").1.feedback_count = 10 ∧
    (add_feedback gpt_const
      { sessions := fun _ => none, style_summaries := fun _ => none }
      "s" "d" "first" "t").1 = .ok (1, false) := by
  obtain ⟨h1, h2, _, h4⟩ :=
    (c7_tenth_feedback_raises gpt_const demo_state "s" "d" "tenth" "t2").1
      (by decide)
  obtain ⟨h5, _, _⟩ :=
    (c7_tenth_feedback_raises gpt_const
      { sessions := fun _ => none, style_summaries := fun _ => none }
      "s" "d" "first" "t").2 (by decide)
  refine ⟨h1, h2, h4, ?_⟩
  rw [h5]
  rfl

theorem scored_zip_eq (sqrt : ℚ → ℚ) (q : List ℚ) (l : List ImageEmbedding) :
    ((l.map (fun emb => cosine_similarity sqrt q emb.embedding)).zip l) =
      l.map (fun e => (cosine_similarity sqrt q e.embedding, e)) := by
  induction l with
  | nil => rfl
  | cons e es ih => simp [ih]

theorem retrieve_pairs_sublist (sqrt : ℚ → ℚ) (config : RetrievalConfig)
    (style : Style) (e0 : ImageEmbedding) (rest : List ImageEmbedding) (k : Nat) :
    List.Sublist (retrieve_pairs sqrt config style e0 rest k)
      (List.insertionSort scoreGe
        (((e0 :: rest).map
          (fun emb => cosine_similarity sqrt e0.embedding emb.embedding)).zip
          (e0 :: rest))) := by
  unfold retrieve_pairs
  by_cases h : config.include_negative
  · simp only [h, if_true]
    exact (List.take_sublist _ _).trans (List.filter_sublist _)
  · simp only [h, if_false]
    exact (List.filter_sublist _).trans
      ((List.take_sublist _ _).trans (List.filter_sublist _))

theorem pairs_invariants (sqrt : ℚ → ℚ) (q : List ℚ) (l : List ImageEmbedding)
    (F : List (ℚ × ImageEmbedding))
    (hsub : List.Sublist F (List.insertionSort scoreGe
      ((l.map (fun emb => cosine_similarity sqrt q emb.embedding)).zip l))) :
    List.Pairwise (fun a b : ℚ => b ≤ a) (F.map (fun p => p.1)) ∧
    (∀ p ∈ F, p.1 = cosine_similarity sqrt q p.2.embedding) ∧
    (∀ s : ℚ,
      List.Sublist
        (((F.map (fun p => p.1)).zip
          (F.map (fun p => reference_image_of p.2))).filter
            (fun p => decide (p.1 = s)))
        ((l.map (fun e =>
          (cosine_similarity sqrt q e.embedding, reference_image_of e))).filter
          (fun p => decide (p.1 = s)))) := by
  have hscored := scored_zip_eq sqrt q l
  have hsorted : List.Pairwise scoreGe (List.insertionSort scoreGe
      ((l.map (fun emb => cosine_similarity sqrt q emb.embedding)).zip l)) :=
    List.sorted_insertionSort scoreGe _
  have hF : List.Pairwise scoreGe F := hsorted.sublist hsub
  refine ⟨?_, ?_, ?_⟩
  · exact List.pairwise_map.mpr (hF.imp (fun h => h))
  · intro p hp
    have hp2 : p ∈ ((l.map
        (fun emb => cosine_similarity sqrt q emb.embedding)).zip l) :=
      (List.perm_insertionSort scoreGe _).subset (hsub.subset hp)
    rw [hscored] at hp2
    obtain ⟨e, _, he⟩ := List.mem_map.mp hp2
    rw [← he]
  · intro s
    have hzipF : ((F.map (fun p => p.1)).zip
        (F.map (fun p => reference_image_of p.2))) =
        F.map (fun p => (p.1, reference_image_of p.2)) :=
      List.zip_map' _ _ F
    have hcand : l.map (fun e =>
        (cosine_similarity sqrt q e.embedding, reference_image_of e)) =
        ((l.map (fun e => (cosine_similarity sqrt q e.embedding, e))).map
          (fun p => (p.1, reference_image_of p.2))) := by
      rw [List.map_map]
      rfl
    rw [hzipF, hcand, List.filter_map, List.filter_map]
    apply List.Sublist.map
    have hstep : List.Sublist (F.filter (fun p => decide (p.1 = s)))
        ((List.insertionSort scoreGe
          ((l.map (fun emb => cosine_similarity sqrt q emb.embedding)).zip
            l)).filter (fun p => decide (p.1 = s))) :=
      hsub.filter _
    rw [filter_score_insertionSort, hscored] at hstep
    exact hstep

/-- C6: every retrieval result pairs images with scores of equal length, the
scores are the cosine similarities of the paired images against the query
vector, the score sequence is non-increasing, and equal-score candidates
appear in their original index order (first-seen wins). -/
theorem c6_retrieval_result_invariants (sqrt : ℚ → ℚ)
    (config : RetrievalConfig) (style : Style)
    (embeddings : List ImageEmbedding) (prompt_spec : PromptSpec)
    (top_k : Option Nat) :
    (retrieve sqrt config style embeddings prompt_spec top_k).images.length =
      (retrieve sqrt config style embeddings prompt_spec top_k).scores.length ∧
    List.Pairwise (fun a b : ℚ => b ≤ a)
      (retrieve sqrt config style embeddings prompt_spec top_k).scores ∧
    (∀ (i : Nat) (po : ℚ),
      (retrieve sqrt config style embeddings prompt_spec top_k).scores[i]? =
        some po →
      ∃ img : ReferenceImage,
        (retrieve sqrt config style embeddings prompt_spec
          top_k).images[i]? = some img ∧
        po = cosine_similarity sqrt (query_embedding_of embeddings)
          img.embedding) ∧
    (∀ s : ℚ,
      List.Sublist
        (((retrieve sqrt config style embeddings prompt_spec top_k).scores.zip
          (retrieve sqrt config style embeddings prompt_spec
            top_k).images).filter (fun p => decide (p.1 = s)))
        ((scored_candidates sqrt embeddings).filter
          (fun p => decide (p.1 = s)))) := by
  cases embeddings with
  | nil =>
    refine ⟨rfl, by simp [retrieve], ?_, ?_⟩
    · intro i po h
      simp [retrieve] at h
    · intro s
      simp [retrieve, scored_candidates]
  | cons e0 rest =>
    obtain ⟨h1, h2, h3⟩ := pairs_invariants sqrt e0.embedding (e0 :: rest)
      (retrieve_pairs sqrt config style e0 rest (resolve_top_k config top_k))
      (retrieve_pairs_sublist sqrt config style e0 rest
        (resolve_top_k config top_k))
    refine ⟨by simp [retrieve], h1, ?_, h3⟩
    intro i po h
    have hF : (retrieve sqrt config style (e0 :: rest) prompt_spec
        top_k).scores[i]? =
        ((retrieve_pairs sqrt config style e0 rest
          (resolve_top_k config top_k))[i]?).map (fun p => p.1) := by
      simp [retrieve, List.getElem?_map]
    rw [hF] at h
    cases hFi : (retrieve_pairs sqrt config style e0 rest
        (resolve_top_k config top_k))[i]? with
    | none => rw [hFi] at h; exact absurd h (by simp)
    | some p =>
      rw [hFi] at h
      simp at h
      refine ⟨reference_image_of p.2, ?_, ?_⟩
      · simp [retrieve, List.getElem?_map, hFi]
      · have hp : p ∈ retrieve_pairs sqrt config style e0 rest
            (resolve_top_k config top_k) := by
          have := hFi
          exact List.getElem?_mem this
        rw [← h]
        exact h2 p hp

theorem cs_emb00 : cosine_similarity sqrt_id [(1 : ℚ), 0] [(1 : ℚ), 0] = 1 := by
  norm_num [cosine_similarity, sqrt_id]
  simp

theorem cs_emb01 : cosine_similarity sqrt_id [(1 : ℚ), 0] [(0 : ℚ), 1] = 0 := by
  norm_num [cosine_similarity, sqrt_id]

theorem retrieve_spec_independent (sqrt : ℚ → ℚ) (config : RetrievalConfig)
    (style : Style) (embeddings : List ImageEmbedding)
    (ps1 ps2 : PromptSpec) (top_k : Option Nat) :
    (retrieve sqrt config style embeddings ps1 top_k).scores =
      (retrieve sqrt config style embeddings ps2 top_k).scores ∧
    (retrieve sqrt config style embeddings ps1 top_k).images =
      (retrieve sqrt config style embeddings ps2 top_k).images := by
  cases embeddings <;> exact ⟨rfl, rfl⟩

/-- Witness for C6 at the concrete two-image index: the head score pairs with
the head image and equals its cosine similarity against the query vector. -/
theorem c6_witness :
    ∃ img : ReferenceImage,
      (retrieve sqrt_id {} style_plain [emb0, emb1]
        (mk_spec "i" "r") none).images[0]? = some img ∧
      (1 : ℚ) = cosine_similarity sqrt_id (query_embedding_of [emb0, emb1])
        img.embedding := by
  have hs : (retrieve sqrt_id {} style_plain [emb0, emb1]
      (mk_spec "i" "r") none).scores = [1, 0] := by
    norm_num [retrieve, retrieve_pairs, resolve_top_k, emb0, emb1, style_plain,
      mk_spec, cs_emb00, cs_emb01, scoreGe, List.insertionSort,
      List.orderedInsert, List.filter_cons, List.filter_nil, decide_eq_true_eq,
      String.reduceEq]
  refine (c6_retrieval_result_invariants sqrt_id {} style_plain [emb0, emb1]
    (mk_spec "i" "r") none).2.2.1 0 1 ?_
  rw [hs]
  rfl

/-- C2 (refuted by the code): the query vector `retrieve` scores candidates
against is the FIRST CANDIDATE's image embedding
(`query_embedding = embeddings[0].embedding`), not an embedding of the query
text: on the two-image index, any two prompt texts give identical scores and
images, the score list is `[1, 0]` (the first candidate always scores 1
against itself), and the query vector is literally `emb0.embedding`. -/
theorem c2_query_vector_is_first_candidate
    (intent1 refined1 intent2 refined2 : String) :
    (retrieve sqrt_id {} style_plain [emb0, emb1]
        (mk_spec intent1 refined1) none).scores =
      (retrieve sqrt_id {} style_plain [emb0, emb1]
        (mk_spec intent2 refined2) none).scores ∧
    (retrieve sqrt_id {} style_plain [emb0, emb1]
        (mk_spec intent1 refined1) none).images =
      (retrieve sqrt_id {} style_plain [emb0, emb1]
        (mk_spec intent2 refined2) none).images ∧
    (retrieve sqrt_id {} style_plain [emb0, emb1]
        (mk_spec intent1 refined1) none).scores = [1, 0] ∧
    query_embedding_of [emb0, emb1] = emb0.embedding := by
  obtain ⟨hs, hi⟩ := retrieve_spec_independent sqrt_id {} style_plain
    [emb0, emb1] (mk_spec intent1 refined1) (mk_spec intent2 refined2) none
  refine ⟨hs, hi, ?_, rfl⟩
  norm_num [retrieve, retrieve_pairs, resolve_top_k, emb0, emb1, style_plain,
    mk_spec, cs_emb00, cs_emb01, scoreGe, List.insertionSort,
    List.orderedInsert, List.filter_cons, List.filter_nil, decide_eq_true_eq,
    String.reduceEq]

/-- Counterexample to C3 as stated: with `topK = 1`, `minSimilarity = 0` and
the top-scoring candidate excluded, the code returns 0 images even though
exactly 1 candidate (= `topK`) survives both the threshold and the exclusion
filter — the claimed order (threshold, exclusion, truncation) would return
that candidate. -/
theorem c3_counterexample :
    (retrieve sqrt_id {} style_excl0 [emb0, emb1]
      (mk_spec "i" "r") (some 1)).images = [] ∧
    (claimed_filter_order {} style_excl0 1
        (List.insertionSort scoreGe
          (([emb0, emb1].map (fun emb =>
            cosine_similarity sqrt_id emb0.embedding emb.embedding)).zip
            [emb0, emb1]))).map (fun p => reference_image_of p.2) =
      [reference_image_of emb1] := by
  constructor
  · norm_num [retrieve, retrieve_pairs, resolve_top_k, emb0, emb1, style_excl0,
      mk_spec, cs_emb00, cs_emb01, scoreGe, List.insertionSort,
      List.orderedInsert, List.filter_cons, List.filter_nil, decide_eq_true_eq,
      String.reduceEq]
  · norm_num [claimed_filter_order, emb0, emb1, style_excl0, cs_emb00, cs_emb01,
      scoreGe, List.insertionSort, List.orderedInsert, List.filter_cons,
      List.filter_nil, decide_eq_true_eq, String.reduceEq]
    rw [if_neg (by decide : ¬ ("img1" = "img0"))]
    rfl

/-- C3 amended: with `includeNegative` unset, the returned candidate set
equals the result of applying, in this order: (1) drop candidates below
`minSimilarity`, (2) truncate to `topK`, (3) drop excluded candidates — so
the result may hold fewer than `topK` images even when at least `topK`
candidates survive both filters, whenever excluded candidates occupy the
top-K window. -/
theorem c3_amended_filter_order (sqrt : ℚ → ℚ) (config : RetrievalConfig)
    (style : Style) (embeddings : List ImageEmbedding)
    (prompt_spec : PromptSpec) (top_k : Option Nat) :
    config.include_negative = false →
      (retrieve sqrt config style embeddings prompt_spec top_k).images =
        (code_filter_order config style (resolve_top_k config top_k)
          (List.insertionSort scoreGe
            ((embeddings.map (fun emb => cosine_similarity sqrt
              (query_embedding_of embeddings) emb.embedding)).zip
              embeddings))).map (fun p => reference_image_of p.2) ∧
      (retrieve sqrt config style embeddings prompt_spec top_k).scores =
        (code_filter_order config style (resolve_top_k config top_k)
          (List.insertionSort scoreGe
            ((embeddings.map (fun emb => cosine_similarity sqrt
              (query_embedding_of embeddings) emb.embedding)).zip
              embeddings))).map (fun p => p.1) := by
  intro h
  cases embeddings with
  | nil => exact ⟨by simp [retrieve, code_filter_order], by
      simp [retrieve, code_filter_order]⟩
  | cons e0 rest =>
    constructor <;>
      simp [retrieve, retrieve_pairs, code_filter_order, h, query_embedding_of]

/-- Witness for C3's amended claim at the counterexample input. -/
theorem c3_amended_witness :
    (retrieve sqrt_id {} style_excl0 [emb0, emb1]
        (mk_spec "i" "r") (some 1)).images =
      (code_filter_order {} style_excl0 1
        (List.insertionSort scoreGe
          (([emb0, emb1].map (fun emb => cosine_similarity sqrt_id
            (query_embedding_of [emb0, emb1]) emb.embedding)).zip
            [emb0, emb1]))).map (fun p => reference_image_of p.2) :=
  (c3_amended_filter_order sqrt_id {} style_excl0 [emb0, emb1]
    (mk_spec "i" "r") (some 1) rfl).1

end Swag
